import Mathlib

/-!
Shallow embedding of the lamda-zapier-demo job-execution pipeline
(producer / consumer / replay controllers, execution and queue models).

Modelling conventions:
- JS objects with string-valued fields are modelled as association lists
  (`Obj`); the differently shaped response `result` objects are collected
  in the inductive `ResultVal`.
- The DynamoDB / SQS / Slack-webhook calls are modelled as state
  transformers over a `World`; each awaited infrastructure call consumes
  one entry of the `effects` oracle (`none` = the call succeeds,
  `some msg` = the call throws an error with message `msg`), which lets a
  theorem quantify over arbitrary success/failure interleavings.
- DynamoDB `UpdateCommand` upserts: updating a missing key creates an
  item carrying only the updated attributes; the attributes that are
  absent on such an item are modelled by the empty/none defaults of
  `blankExecution`.
- Timestamp attributes (`created_at`, `updated_at`, log `timestamp`,
  `ttl`) and log `metadata` are omitted: no verified claim mentions them.
- `World.trace` instruments the update calls issued to the record store
  (execution id, status, result, retry count, in order), and
  `World.deleted` records the receipt handles acknowledged on the DLQ,
  mirroring a stub transport that records delete calls.
- `uuidv4` randomness is modelled by the `uuids` supply in the world.
-/

deriving instance DecidableEq for Except

namespace LambdaApp

/-- JS objects whose fields are opaque strings, as association lists. -/
abbrev Obj := List (String × String)

/-- A producer request body / queued payload (`body` in the JS source).
Absent fields are `none`; the JS falsy check on the string fields also
treats the empty string as missing (see `isFalsy`). -/
structure Payload where
  action : String
  message : Option String
  payloadField : Option Obj
  execution_id : Option String
  webhookUrl : Option String
deriving DecidableEq, Repr

/-- JS falsy test for an optional string field (`undefined`/`null`/`""`). -/
def isFalsy : Option String → Bool
  | none => true
  | some s => s = ""

/-- An execution record as stored by `execution.model.js` (timestamps and
the DynamoDB key/GSI attributes are omitted). -/
structure Execution where
  execution_id : String
  status : String
  action : String
  payload : Option Payload
  retry_count : Nat
  result : Option Obj
deriving DecidableEq, Repr

/-- A main-queue message: `sendToQueue` sends the JSON body
`\x7b execution_id, ...payload \x7d`; the envelope is modelled as the id
plus the spread payload. -/
structure QueueMsg where
  execution_id : String
  body : Payload
deriving DecidableEq, Repr

/-- A dead-letter message: the JSON-parsed `Body` (the original queue
envelope) plus the SQS `ReceiptHandle`. -/
structure DlqMessage where
  body : QueueMsg
  receiptHandle : String
deriving DecidableEq, Repr

/-- A log entry written by `log.model.js` (metadata/ttl omitted). -/
structure LogEntry where
  execution_id : String
  level : String
  message : String
deriving DecidableEq, Repr

/-- Instrumentation record of one `updateExecution` call. -/
structure UpdateCall where
  execution_id : String
  status : String
  result_data : Option Obj
  retry_count : Nat
deriving DecidableEq, Repr

/-- The per-execution result object returned by `replayExecution`. -/
structure ReplayResult where
  execution_id : String
  success : Bool
  error : Option String
deriving DecidableEq, Repr

/-- The differently shaped JS `result` objects of the API responses. -/
inductive ResultVal where
  /-- a plain object of string fields -/
  | obj (fields : Obj)
  /-- the `get-status` response object built by `getExecutionStatus` -/
  | execStatus (execution_id status action : String) (retry_count : Nat)
      (result : Option Obj)
  /-- the `createAndQueueExecution` success object -/
  | queuedOk (execution_id : String) (message : String)
  /-- the `replayAllFromDLQ` empty-queue object -/
  | replayNoMessages
  /-- the replay aggregate counts with per-item details -/
  | replaySummary (total replayed failed : Nat) (details : List ReplayResult)
deriving DecidableEq, Repr

/-- The uniform response envelope `\x7b status, result, error \x7d`. -/
structure ApiResponse where
  status : Bool
  result : Option ResultVal
  error : Option String
deriving DecidableEq, Repr

/-- The return value of `validateAction`, `\x7b valid, error \x7d`. -/
structure Validation where
  valid : Bool
  error : Option String
deriving DecidableEq, Repr

/-- Association-list lookup for the record store. -/
def storeGet : List (String × Execution) → String → Option Execution
  | [], _ => none
  | (k, e) :: rest, id => if k = id then some e else storeGet rest id

/-- Association-list write (overwrite in place or append) for the store. -/
def storeSet : List (String × Execution) → String → Execution →
    List (String × Execution)
  | [], id, e => [(id, e)]
  | (k, old) :: rest, id, e =>
      if k = id then (id, e) :: rest else (k, old) :: storeSet rest id e

/-- The whole external world the controllers act on. -/
structure World where
  /-- the executions table, keyed by execution id -/
  store : List (String × Execution)
  /-- the main SQS queue (messages in send order) -/
  queue : List QueueMsg
  /-- the dead-letter queue contents -/
  dlq : List DlqMessage
  /-- receipt handles acknowledged by `deleteFromDLQ`, in order -/
  deleted : List String
  /-- log entries written so far -/
  logs : List LogEntry
  /-- instrumented record-store update calls, in order -/
  trace : List UpdateCall
  /-- supply of `uuidv4` values -/
  uuids : List String
  /-- per-infrastructure-call outcome oracle -/
  effects : List (Option String)
deriving DecidableEq, Repr

/-- Consume the next infrastructure-call outcome (an exhausted oracle
defaults to success). -/
def takeEff (w : World) : Option String × World :=
  match w.effects with
  | [] => (none, w)
  | e :: rest => (e, { w with effects := rest })

/-- Pop the next uuid from the supply. -/
def freshUuid (w : World) : String × World :=
  match w.uuids with
  | [] => ("", w)
  | u :: rest => (u, { w with uuids := rest })

/-- Model of `ExecutionModel.createExecution`: put a fresh record with
`status = queued`, `retry_count = 0`. -/
def createExecution (execution_id : String) (payload : Payload)
    (w : World) : Except String Execution × World :=
  let r := takeEff w
  match r.1 with
  | some msg => (.error msg, r.2)
  | none =>
      let record : Execution :=
        { execution_id := execution_id, status := "queued",
          action := payload.action, payload := some payload,
          retry_count := 0, result := none }
      (.ok record, { r.2 with store := storeSet r.2.store execution_id record })

/-- Model of `ExecutionModel.getExecution`: point read, `null` when absent. -/
def getExecution (execution_id : String) (w : World) :
    Except String (Option Execution) × World :=
  let r := takeEff w
  match r.1 with
  | some msg => (.error msg, r.2)
  | none => (.ok (storeGet r.2.store execution_id), r.2)

/-- The record carrying only the attributes an upserting update sets
(absent attributes modelled as empty/none). -/
def blankExecution : Execution :=
  { execution_id := "", status := "", action := "", payload := none,
    retry_count := 0, result := none }

/-- The field changes performed by the SET expression of `updateExecution`:
status and retry_count are always written; result only when
`result_data` is non-null. -/
def applyUpdate (e : Execution) (status : String) (result_data : Option Obj)
    (retry_count : Nat) : Execution :=
  { e with status := status, retry_count := retry_count,
           result := match result_data with
             | some r => some r
             | none => e.result }

/-- Model of `ExecutionModel.updateExecution`: conditional-free update (DynamoDB
upserts on a missing key). The JS defaults are `result_data = null`,
`retry_count = 0`; callers of the model pass them explicitly. -/
def updateExecution (execution_id status : String) (result_data : Option Obj)
    (retry_count : Nat) (w : World) : Except String Unit × World :=
  let r := takeEff w
  match r.1 with
  | some msg => (.error msg, r.2)
  | none =>
      let base := (storeGet r.2.store execution_id).getD blankExecution
      let updated := applyUpdate base status result_data retry_count
      (.ok (),
        { r.2 with
            store := storeSet r.2.store execution_id updated
            trace := r.2.trace ++
              [{ execution_id := execution_id, status := status,
                 result_data := result_data, retry_count := retry_count }] })

/-- Model of `LogModel.writeLog`: append-only log write. -/
def writeLog (execution_id level message : String) (w : World) :
    Except String Unit × World :=
  let r := takeEff w
  match r.1 with
  | some msg => (.error msg, r.2)
  | none =>
      (.ok (), { r.2 with logs := r.2.logs ++
        [{ execution_id := execution_id, level := level, message := message }] })

/-- Model of `QueueModel.sendToQueue`: send the envelope to the main queue. -/
def sendToQueue (execution_id : String) (payload : Payload) (w : World) :
    Except String Unit × World :=
  let r := takeEff w
  match r.1 with
  | some msg => (.error msg, r.2)
  | none =>
      (.ok (), { r.2 with queue := r.2.queue ++
        [{ execution_id := execution_id, body := payload }] })

/-- Model of `QueueModel.fetchDLQMessages`: receive up to `min max_messages 10`
dead-letter messages (receiving does not remove them). -/
def fetchDLQMessages (max_messages : Nat) (w : World) :
    Except String (List DlqMessage) × World :=
  let r := takeEff w
  match r.1 with
  | some msg => (.error msg, r.2)
  | none => (.ok (r.2.dlq.take (min max_messages 10)), r.2)

/-- Model of `QueueModel.deleteFromDLQ`: acknowledge (remove) by receipt handle;
the handle is also recorded on the stub-transport `deleted` list. -/
def deleteFromDLQ (receipt_handle : String) (w : World) :
    Except String Unit × World :=
  let r := takeEff w
  match r.1 with
  | some msg => (.error msg, r.2)
  | none =>
      (.ok (),
        { r.2 with
            dlq := r.2.dlq.filter (fun m => m.receiptHandle ≠ receipt_handle)
            deleted := r.2.deleted ++ [receipt_handle] })

/-- The success value of `SlackService.sendMessage`. -/
def SLACK_SEND_MESSAGE_OK : Obj :=
  [("status", "ok"), ("message", "Message sent successfully")]

/-- The success value of `SlackService.sendFormattedMessage`. -/
def SLACK_SEND_FORMATTED_OK : Obj :=
  [("status", "ok"), ("message", "Formatted message sent successfully")]

/-- Model of `SlackService.sendMessage`: the webhook fetch; configuration and
network failures are driven by the effect oracle, success returns the
fixed acknowledgment object from the source. -/
def slackSendMessage (_message : String) (_webhookUrl : Option String)
    (w : World) : Except String Obj × World :=
  let r := takeEff w
  match r.1 with
  | some msg => (.error msg, r.2)
  | none => (.ok SLACK_SEND_MESSAGE_OK, r.2)

/-- Model of `SlackService.sendFormattedMessage`, analogously. -/
def slackSendFormattedMessage (_payload : Option Obj)
    (_webhookUrl : Option String) (w : World) : Except String Obj × World :=
  let r := takeEff w
  match r.1 with
  | some msg => (.error msg, r.2)
  | none => (.ok SLACK_SEND_FORMATTED_OK, r.2)

/-- The payload `\x7b action \x7d` holding only an action, used by
the re-derived message of `handleConsumer` and by the fallback of
`replayExecution`. -/
def payloadOfAction (action : String) : Payload :=
  { action := action, message := none, payloadField := none,
    execution_id := none, webhookUrl := none }

/-! ## Consumer controller -/

/-- The constant `MAX_RETRY_ATTEMPTS` of `consumer.controller.js`. -/
def MAX_RETRY_ATTEMPTS : Nat := 3

/-- The catch block of `ConsumerController.processMessage`: re-read the
record, increment its retry count, mark failed at the limit or re-queue
below it, then re-throw the original error (a throw inside the catch
itself propagates instead). -/
def processFailurePath (execution_id errMsg : String) (w : World) :
    Except String ApiResponse × World :=
  let g := getExecution execution_id w
  match g.1 with
  | .error msg2 => (.error msg2, g.2)
  | .ok execution =>
      let retry_count :=
        (match execution with
          | some e => e.retry_count
          | none => 0) + 1
      if retry_count ≥ MAX_RETRY_ATTEMPTS then
        let u := updateExecution execution_id "failed"
          (some [("error", errMsg)]) retry_count g.2
        match u.1 with
        | .error m => (.error m, u.2)
        | .ok _ =>
            let l := writeLog execution_id "error"
              ("Processing failed after " ++ toString retry_count ++
                " attempts") u.2
            match l.1 with
            | .error m => (.error m, l.2)
            | .ok _ => (.error errMsg, l.2)
      else
        let u := updateExecution execution_id "queued" none retry_count g.2
        match u.1 with
        | .error m => (.error m, u.2)
        | .ok _ =>
            let l := writeLog execution_id "warning"
              ("Processing failed, retry " ++ toString retry_count ++ "/" ++
                toString MAX_RETRY_ATTEMPTS) u.2
            match l.1 with
            | .error m => (.error m, l.2)
            | .ok _ => (.error errMsg, l.2)

/-- Model of `ConsumerController.processMessage`: transition to `processing`
(with the JS default arguments `result_data = null`, `retry_count = 0`),
log, build the hardcoded success object, transition to `completed` with
it, log; any throw is handled by `processFailurePath` and re-thrown. -/
def processMessage (message : QueueMsg) (w : World) :
    Except String ApiResponse × World :=
  let execution_id := message.execution_id
  let action := message.body.action
  let u1 := updateExecution execution_id "processing" none 0 w
  match u1.1 with
  | .error m => processFailurePath execution_id m u1.2
  | .ok _ =>
      let l1 := writeLog execution_id "info" ("Processing " ++ action) u1.2
      match l1.1 with
      | .error m => processFailurePath execution_id m l1.2
      | .ok _ =>
          let api_result : Obj :=
            [("message", "Action " ++ action ++ " processed successfully")]
          let u2 := updateExecution execution_id "completed"
            (some api_result) 0 l1.2
          match u2.1 with
          | .error m => processFailurePath execution_id m u2.2
          | .ok _ =>
              let l2 := writeLog execution_id "info"
                "Processing completed successfully" u2.2
              match l2.1 with
              | .error m => processFailurePath execution_id m l2.2
              | .ok _ =>
                  (.ok { status := true, result := some (.obj api_result),
                         error := none }, l2.2)

/-- The request body of the manual consumer route. -/
structure ConsumerBody where
  execution_id : Option String
deriving DecidableEq, Repr

/-- Model of `ConsumerController.handleConsumer`: validate the id, look the
record up, re-derive the message from the record and call
`processMessage`; every error is converted to a `status := false`
envelope. -/
def handleConsumer (body : ConsumerBody) (w : World) : ApiResponse × World :=
  if isFalsy body.execution_id then
    ({ status := false, result := none,
       error := some "Missing required field: execution_id" }, w)
  else
    let id := body.execution_id.getD ""
    let g := getExecution id w
    match g.1 with
    | .error m => ({ status := false, result := none, error := some m }, g.2)
    | .ok none =>
        ({ status := false, result := none,
           error := some "Execution not found" }, g.2)
    | .ok (some execution) =>
        let p := processMessage
          { execution_id := execution.execution_id,
            body := payloadOfAction execution.action } g.2
        match p.1 with
        | .ok r => (r, p.2)
        | .error m =>
            ({ status := false, result := none, error := some m }, p.2)

/-- Model of `handleSQSEvent` in the unified handler: process each delivered
record in order; a processing error is re-thrown, aborting the batch
(the locally collected results are discarded by the source either
way). -/
def handleSQSEvent : List QueueMsg → World → Except String Unit × World
  | [], w => (.ok (), w)
  | m :: rest, w =>
      let p := processMessage m w
      match p.1 with
      | .error msg => (.error msg, p.2)
      | .ok _ => handleSQSEvent rest p.2

/-! ## Producer controller -/

/-- The constant `VALID_ACTIONS` of `producer.controller.js`. -/
def VALID_ACTIONS : List String :=
  ["get-status", "send-slack-message", "send-slack-formatted"]

/-- Model of `ProducerController.validateAction`: membership in the supported
action set, then the action-specific required field, with distinct error
strings. -/
def validateAction (payload : Payload) : Validation :=
  if payload.action = "" then
    { valid := false, error := some "Missing required field: action" }
  else if payload.action ∉ VALID_ACTIONS then
    { valid := false,
      error := some ("Invalid action. Must be one of: " ++
        String.intercalate ", " VALID_ACTIONS) }
  else if payload.action = "get-status" ∧ isFalsy payload.execution_id then
    { valid := false,
      error := some "Missing required field: execution_id (for get-status action)" }
  else if payload.action = "send-slack-message" ∧ isFalsy payload.message then
    { valid := false,
      error := some "Missing required field: message (for send-slack-message action)" }
  else if payload.action = "send-slack-formatted" ∧ payload.payloadField = none then
    { valid := false,
      error := some "Missing required field: payload (for send-slack-formatted action)" }
  else
    { valid := true, error := none }

/-- Model of `ProducerController.getExecutionStatus`: read the record and return
its fields (`result` being `null` until set), or a not-found error. -/
def getExecutionStatus (execution_id : String) (w : World) :
    Except String ApiResponse × World :=
  let g := getExecution execution_id w
  match g.1 with
  | .error m => (.error m, g.2)
  | .ok none =>
      (.ok { status := false, result := none,
             error := some "Execution not found" }, g.2)
  | .ok (some e) =>
      (.ok { status := true,
             result := some (.execStatus e.execution_id e.status e.action
               e.retry_count e.result),
             error := none }, g.2)

/-- Model of `ProducerController.createAndQueueExecution`: generate the id from a
fresh uuid, create the record and send the queue message (the JS
launches both through `Promise.all`, so both side effects are attempted
even when one rejects; the first rejection wins), then fire a log write
without awaiting it (its rejection is swallowed). -/
def createAndQueueExecution (payload : Payload) (w : World) :
    Except String ApiResponse × World :=
  let f := freshUuid w
  let execution_id := "exec_" ++ f.1
  let c := createExecution execution_id payload f.2
  let s := sendToQueue execution_id payload c.2
  match c.1 with
  | .error m => (.error m, s.2)
  | .ok _ =>
      match s.1 with
      | .error m => (.error m, s.2)
      | .ok _ =>
          let l := writeLog execution_id "info" "Execution queued" s.2
          (.ok { status := true,
                 result := some (.queuedOk execution_id
                   "Request queued successfully"),
                 error := none }, l.2)

/-- Model of `ProducerController.handleProducer`: validate, then dispatch —
`get-status` returns the stored status, the two Slack actions are
executed synchronously and returned directly, and only the fallthrough
(unreachable for the three valid actions) creates and queues an
execution; thrown errors become a `status := false` envelope. -/
def handleProducer (body : Payload) (w : World) : ApiResponse × World :=
  let validation := validateAction body
  if validation.valid = false then
    ({ status := false, result := none, error := validation.error }, w)
  else if body.action = "get-status" then
    let g := getExecutionStatus (body.execution_id.getD "") w
    match g.1 with
    | .error m => ({ status := false, result := none, error := some m }, g.2)
    | .ok r => (r, g.2)
  else if body.action = "send-slack-message" then
    let s := slackSendMessage (body.message.getD "") body.webhookUrl w
    match s.1 with
    | .error m => ({ status := false, result := none, error := some m }, s.2)
    | .ok r =>
        ({ status := true, result := some (.obj r), error := none }, s.2)
  else if body.action = "send-slack-formatted" then
    let s := slackSendFormattedMessage body.payloadField body.webhookUrl w
    match s.1 with
    | .error m => ({ status := false, result := none, error := some m }, s.2)
    | .ok r =>
        ({ status := true, result := some (.obj r), error := none }, s.2)
  else
    let c := createAndQueueExecution body w
    match c.1 with
    | .error m => ({ status := false, result := none, error := some m }, c.2)
    | .ok r => (r, c.2)

/-! ## Replay controller -/

/-- Model of `ReplayController.replayExecution`: look the record up, resend the
stored payload (or `\x7b action \x7d` when none was stored) to the main
queue, reset the record to `queued` with retry count 0, log; every
thrown error is caught and reported per-execution, nothing propagates
past this boundary. -/
def replayExecution (execution_id : String) (w : World) :
    ReplayResult × World :=
  let g := getExecution execution_id w
  match g.1 with
  | .error m =>
      ({ execution_id := execution_id, success := false, error := some m },
        g.2)
  | .ok none =>
      ({ execution_id := execution_id, success := false,
         error := some "Execution not found" }, g.2)
  | .ok (some execution) =>
      let payload := execution.payload.getD (payloadOfAction execution.action)
      let s := sendToQueue execution_id payload g.2
      match s.1 with
      | .error m =>
          ({ execution_id := execution_id, success := false,
             error := some m }, s.2)
      | .ok _ =>
          let u := updateExecution execution_id "queued" none 0 s.2
          match u.1 with
          | .error m =>
              ({ execution_id := execution_id, success := false,
                 error := some m }, u.2)
          | .ok _ =>
              let l := writeLog execution_id "info"
                "Execution replayed from DLQ" u.2
              match l.1 with
              | .error m =>
                  ({ execution_id := execution_id, success := false,
                     error := some m }, l.2)
              | .ok _ =>
                  ({ execution_id := execution_id, success := true,
                     error := none }, l.2)

/-- The per-message loop of `ReplayController.replayAllFromDLQ`: replay
the execution of each fetched message, and delete the dead-letter entry —
only when that replay reported success; a throw of the (awaited) delete
propagates and aborts the loop. -/
def replayLoop : List DlqMessage → List ReplayResult → World →
    Except String (List ReplayResult) × World
  | [], acc, w => (.ok acc, w)
  | msg :: rest, acc, w =>
      let execution_id := msg.body.execution_id
      let r := replayExecution execution_id w
      let acc2 := acc ++ [r.1]
      if r.1.success then
        let d := deleteFromDLQ msg.receiptHandle r.2
        match d.1 with
        | .error m => (.error m, d.2)
        | .ok _ => replayLoop rest acc2 d.2
      else
        replayLoop rest acc2 r.2

/-- Model of `ReplayController.replayAllFromDLQ`: fetch up to 10 dead-letter
messages, short-circuit when there are none, run the replay loop, and
aggregate the counts. -/
def replayAllFromDLQ (w : World) : Except String ApiResponse × World :=
  let f := fetchDLQMessages 10 w
  match f.1 with
  | .error m => (.error m, f.2)
  | .ok messages =>
      if messages.length = 0 then
        (.ok { status := true, result := some .replayNoMessages,
               error := none }, f.2)
      else
        let lp := replayLoop messages [] f.2
        match lp.1 with
        | .error m => (.error m, lp.2)
        | .ok results =>
            let replayed_count := (results.filter fun r => r.success).length
            let failed_count := (results.filter fun r => !r.success).length
            (.ok { status := true,
                   result := some (.replaySummary messages.length
                     replayed_count failed_count results),
                   error := none }, lp.2)

/-- The loop of the explicit-id branch of `handleReplay` (`replayExecution`
never throws, so this loop is total). -/
def replayIdsLoop : List String → World → List ReplayResult × World
  | [], w => ([], w)
  | id :: rest, w =>
      let r := replayExecution id w
      let t := replayIdsLoop rest r.2
      (r.1 :: t.1, t.2)

/-- The request body of the replay route. -/
structure ReplayBody where
  execution_ids : Option (List String)
deriving DecidableEq, Repr

/-- Model of `ReplayController.handleReplay`: replay an explicit id list when
supplied, otherwise drain one dead-letter batch; thrown errors become a
`status := false` envelope. -/
def handleReplay (body : ReplayBody) (w : World) : ApiResponse × World :=
  match body.execution_ids with
  | some ids =>
      let lp := replayIdsLoop ids w
      let replayed_count := (lp.1.filter fun r => r.success).length
      let failed_count := (lp.1.filter fun r => !r.success).length
      ({ status := true,
         result := some (.replaySummary ids.length replayed_count
           failed_count lp.1),
         error := none }, lp.2)
  | none =>
      let a := replayAllFromDLQ w
      match a.1 with
      | .error m =>
          ({ status := false, result := none, error := some m }, a.2)
      | .ok r => (r, a.2)

/-! ## Concrete fixtures -/

/-- A world with empty store, queues and oracle. -/
def baseWorld : World :=
  { store := [], queue := [], dlq := [], deleted := [], logs := [],
    trace := [], uuids := [], effects := [] }

/-- A valid `send-slack-message` submission body. -/
def examplePayload : Payload :=
  { action := "send-slack-message", message := some "Hello",
    payloadField := none, execution_id := none, webhookUrl := none }

/-- A stored execution record for `examplePayload` with a given
retry count. -/
def exampleRecord (retry_count : Nat) : Execution :=
  { execution_id := "exec_1", status := "queued",
    action := "send-slack-message", payload := some examplePayload,
    retry_count := retry_count, result := none }

/-- A world holding `exampleRecord` under its id, with a chosen effect
schedule. -/
def exampleWorld (retry_count : Nat) (effects : List (Option String)) :
    World :=
  { baseWorld with store := [("exec_1", exampleRecord retry_count)],
                   effects := effects }

/-- The queue message delivering `examplePayload` for `exec_1`. -/
def exampleMsg : QueueMsg :=
  { execution_id := "exec_1", body := examplePayload }

/-- An effect schedule for one processing attempt whose completed-update
call throws `boom`: the processing update, its log, then the throw, then
the read, queued-update and log of the catch path all succeed. -/
def attemptFailEffects : List (Option String) :=
  [none, none, some "boom", none, none, none]

/-- A dead-letter message for the stored `exec_1` execution. -/
def dlqMsg1 : DlqMessage := { body := exampleMsg, receiptHandle := "rh1" }

/-- A dead-letter message whose execution id has no stored record. -/
def dlqMsg2 : DlqMessage :=
  { body := { execution_id := "missing", body := examplePayload },
    receiptHandle := "rh2" }

/-- A world whose dead-letter queue holds one replayable and one
orphaned message; the effect oracle succeeds on the fetch and then by
exhaustion. -/
def c6World : World :=
  { exampleWorld 0 [none] with dlq := [dlqMsg1, dlqMsg2] }

/-- A world supplying one uuid and four successful infrastructure calls,
for exercising the create-and-queue step followed by a status read. -/
def c4World : World :=
  { baseWorld with uuids := ["u1"], effects := [none, none, none, none] }

/-! ## Helper lemmas -/

theorem takeEff_eq (w : World) :
    takeEff w = (w.effects.head?.getD none,
      { w with effects := w.effects.tail }) := by
  rcases w with ⟨s, q, d, del, lg, tr, uu, ef⟩
  cases ef <;> rfl

theorem storeGet_storeSet (s : List (String × Execution)) (id : String)
    (e : Execution) : storeGet (storeSet s id e) id = some e := by
  induction s with
  | nil => simp [storeGet, storeSet]
  | cons kv rest ih =>
      rcases kv with ⟨k, old⟩
      by_cases h : k = id <;> simp [storeGet, storeSet, h, ih]

theorem getExecution_frame (i : String) (w : World) :
    ((getExecution i w).2).deleted = w.deleted ∧
      ((getExecution i w).2).dlq = w.dlq := by
  rcases w with ⟨s, q, d, del, lg, tr, uu, ef⟩
  unfold getExecution
  rcases ef with _ | ⟨e0, ef⟩ <;> [skip; cases e0] <;> simp [takeEff]

theorem sendToQueue_frame (i : String) (p : Payload) (w : World) :
    ((sendToQueue i p w).2).deleted = w.deleted ∧
      ((sendToQueue i p w).2).dlq = w.dlq := by
  rcases w with ⟨s, q, d, del, lg, tr, uu, ef⟩
  unfold sendToQueue
  rcases ef with _ | ⟨e0, ef⟩ <;> [skip; cases e0] <;> simp [takeEff]

theorem updateExecution_frame (i st : String) (res : Option Obj) (rc : Nat)
    (w : World) :
    ((updateExecution i st res rc w).2).deleted = w.deleted ∧
      ((updateExecution i st res rc w).2).dlq = w.dlq := by
  rcases w with ⟨s, q, d, del, lg, tr, uu, ef⟩
  unfold updateExecution
  rcases ef with _ | ⟨e0, ef⟩ <;> [skip; cases e0] <;> simp [takeEff]

theorem writeLog_frame (i lv m : String) (w : World) :
    ((writeLog i lv m w).2).deleted = w.deleted ∧
      ((writeLog i lv m w).2).dlq = w.dlq := by
  rcases w with ⟨s, q, d, del, lg, tr, uu, ef⟩
  unfold writeLog
  rcases ef with _ | ⟨e0, ef⟩ <;> [skip; cases e0] <;> simp [takeEff]

theorem replayExecution_frame (i : String) (w : World) :
    ((replayExecution i w).2).deleted = w.deleted ∧
      ((replayExecution i w).2).dlq = w.dlq := by
  unfold replayExecution
  dsimp only
  have hg := getExecution_frame i w
  split
  · exact hg
  · exact hg
  · rename_i e _
    have hs := sendToQueue_frame i (e.payload.getD (payloadOfAction e.action))
      (getExecution i w).2
    split
    · exact ⟨hs.1.trans hg.1, hs.2.trans hg.2⟩
    · have hu := updateExecution_frame i "queued" none 0
        (sendToQueue i (e.payload.getD (payloadOfAction e.action))
          (getExecution i w).2).2
      split
      · exact ⟨hu.1.trans (hs.1.trans hg.1), hu.2.trans (hs.2.trans hg.2)⟩
      · have hl := writeLog_frame i "info" "Execution replayed from DLQ"
          (updateExecution i "queued" none 0
            (sendToQueue i (e.payload.getD (payloadOfAction e.action))
              (getExecution i w).2).2).2
        split
        · exact ⟨hl.1.trans (hu.1.trans (hs.1.trans hg.1)),
            hl.2.trans (hu.2.trans (hs.2.trans hg.2))⟩
        · exact ⟨hl.1.trans (hu.1.trans (hs.1.trans hg.1)),
            hl.2.trans (hu.2.trans (hs.2.trans hg.2))⟩

theorem replayExecution_shape (i : String) (w : World) :
    (replayExecution i w).1 = (⟨i, true, none⟩ : ReplayResult) ∨
      ∃ m, (replayExecution i w).1 = (⟨i, false, some m⟩ : ReplayResult) := by
  unfold replayExecution
  dsimp only
  repeat' split
  all_goals simp

theorem deleteFromDLQ_cases (h : String) (w : World) :
    ((deleteFromDLQ h w).1 = .ok () ∧
      (deleteFromDLQ h w).2.deleted = w.deleted ++ [h] ∧
      (deleteFromDLQ h w).2.dlq =
        w.dlq.filter (fun m => m.receiptHandle ≠ h)) ∨
    (∃ m, (deleteFromDLQ h w).1 = .error m ∧
      (deleteFromDLQ h w).2.deleted = w.deleted ∧
      (deleteFromDLQ h w).2.dlq = w.dlq) := by
  rcases w with ⟨s, q, d, del, lg, tr, uu, ef⟩
  unfold deleteFromDLQ
  rcases ef with _ | ⟨e0, ef⟩ <;> [skip; cases e0] <;> simp [takeEff]

theorem processMessage_depends (m m' : QueueMsg) (w : World)
    (hi : m.execution_id = m'.execution_id)
    (ha : m.body.action = m'.body.action) :
    processMessage m w = processMessage m' w := by
  rcases m with ⟨i, p⟩
  rcases m' with ⟨i', p'⟩
  simp only at hi ha
  unfold processMessage
  simp only
  rw [hi, ha]

/-! ## Claim theorems -/

/-- C1: the retry accounting does not accumulate. Starting from a queued
record with `retry_count = 0`, two consecutive processing attempts whose
completed-update call throws leave the stored `retry_count` at 1 after
each attempt: the queued→processing write resets the counter to 0 (the
JS default of the update), so the catch path re-reads 0 and stores 1 every
time, the per-attempt increments do not add up, and the `failed`
transition at `MAX_RETRY_ATTEMPTS = 3` is unreachable along this organic
path — contradicting the claimed exactly-one-increment-per-failure
accumulation. -/
theorem c1_retry_count_resets_across_failed_attempts :
    (processMessage exampleMsg
      (exampleWorld 0 (attemptFailEffects ++ attemptFailEffects))).1 =
        .error "boom" ∧
    storeGet (processMessage exampleMsg
      (exampleWorld 0 (attemptFailEffects ++ attemptFailEffects))).2.store
        "exec_1" = some { exampleRecord 0 with retry_count := 1 } ∧
    (processMessage exampleMsg (processMessage exampleMsg
      (exampleWorld 0 (attemptFailEffects ++ attemptFailEffects))).2).1 =
        .error "boom" ∧
    storeGet (processMessage exampleMsg (processMessage exampleMsg
      (exampleWorld 0 (attemptFailEffects ++ attemptFailEffects))).2).2.store
        "exec_1" = some { exampleRecord 0 with retry_count := 1 } ∧
    (processMessage exampleMsg (processMessage exampleMsg
      (exampleWorld 0 (attemptFailEffects ++ attemptFailEffects))).2).2.trace =
      [⟨"exec_1", "processing", none, 0⟩, ⟨"exec_1", "queued", none, 1⟩,
       ⟨"exec_1", "processing", none, 0⟩, ⟨"exec_1", "queued", none, 1⟩] := by
  decide

/-- C2: the stored retry count is not monotone over the
queued→processing transition. On a queued record with `retry_count = 1`
the processing write of the consumer (`updateExecution` with its JS
defaults, as recorded in the trace of the run) stores `retry_count = 0`,
lowering it. -/
theorem c2_processing_transition_lowers_retry_count :
    (exampleRecord 1).retry_count = 1 ∧
    storeGet ((updateExecution "exec_1" "processing" none 0
      (exampleWorld 1 [])).2).store "exec_1" =
      some { exampleRecord 1 with
               status := "processing"
               retry_count := 0 } ∧
    (processMessage exampleMsg (exampleWorld 1 [])).2.trace =
      [⟨"exec_1", "processing", none, 0⟩,
       ⟨"exec_1", "completed",
         some [("message", "Action send-slack-message processed successfully")],
         0⟩] := by
  decide

/-- C3: the success path performs the queued→processing→completed
transition sequence, but the stored result is the hardcoded
`Action ... processed successfully` object — no executor capability is
ever invoked, and the stored result differs from the output of the Slack
executor bound to the `send-slack-message` action. -/
theorem c3_result_is_hardcoded_not_executor_output :
    (processMessage exampleMsg (exampleWorld 0 [])).1 =
      .ok ⟨true, some (.obj [("message",
        "Action send-slack-message processed successfully")]), none⟩ ∧
    storeGet (processMessage exampleMsg (exampleWorld 0 [])).2.store
      "exec_1" =
      some { exampleRecord 0 with
               status := "completed"
               result := some [("message",
                 "Action send-slack-message processed successfully")] } ∧
    (processMessage exampleMsg (exampleWorld 0 [])).2.trace =
      [⟨"exec_1", "processing", none, 0⟩,
       ⟨"exec_1", "completed",
         some [("message", "Action send-slack-message processed successfully")],
         0⟩] ∧
    ([("message", "Action send-slack-message processed successfully")] : Obj)
      ≠ SLACK_SEND_MESSAGE_OK := by
  decide

/-- C4 counterexample: a valid `send-slack-message` submission is
handled synchronously by the producer — the response carries the Slack
service output, no execution record is persisted and no queue message is
sent, so no freshly-created execution id exists for `getStatus` to
return `queued` for, refuting the claim for this valid submission. -/
theorem c4_counterexample_valid_submission_not_queued :
    (validateAction examplePayload).valid = true ∧
    (handleProducer examplePayload baseWorld).1 =
      ⟨true, some (.obj SLACK_SEND_MESSAGE_OK), none⟩ ∧
    (handleProducer examplePayload baseWorld).2.store = [] ∧
    (handleProducer examplePayload baseWorld).2.queue = [] := by
  decide

/-- C9: validation failures are reported with distinct error strings —
an unknown action yields the error listing the valid actions, each
action-specific missing field yields the error naming that field — and
an invalid submission makes `handleProducer` return `status := false`
with the validation error, leaving the world (store and queue included)
untouched. -/
theorem c9_validation_distinct_errors_and_no_side_effects :
    (∀ (w : World) (p : Payload), (validateAction p).valid = false →
      handleProducer p w = (⟨false, none, (validateAction p).error⟩, w)) ∧
    (validateAction (payloadOfAction "frobnicate")).valid = false ∧
    (validateAction (payloadOfAction "frobnicate")).error =
      some "Invalid action. Must be one of: get-status, send-slack-message, send-slack-formatted" ∧
    (validateAction (payloadOfAction "get-status")).error =
      some "Missing required field: execution_id (for get-status action)" ∧
    (validateAction (payloadOfAction "send-slack-message")).error =
      some "Missing required field: message (for send-slack-message action)" ∧
    (validateAction (payloadOfAction "send-slack-formatted")).error =
      some "Missing required field: payload (for send-slack-formatted action)" ∧
    (validateAction (payloadOfAction "frobnicate")).error ≠
      (validateAction (payloadOfAction "get-status")).error ∧
    (validateAction (payloadOfAction "get-status")).error ≠
      (validateAction (payloadOfAction "send-slack-message")).error := by
  constructor
  · intro w p h
    unfold handleProducer
    simp [h]
  · decide

/-- C9 witness: the no-side-effect conjunct applied to the unknown
action `frobnicate` on the empty world. -/
theorem c9_witness :
    handleProducer (payloadOfAction "frobnicate") baseWorld =
      (⟨false, none, (validateAction (payloadOfAction "frobnicate")).error⟩,
        baseWorld) :=
  c9_validation_distinct_errors_and_no_side_effects.1 baseWorld
    (payloadOfAction "frobnicate") (by decide)

/-- C10: `updateExecution` unconditionally writes the `retry_count`
attribute — the supplied value (0 under the JS default, as in the
processing transition of the consumer) overwrites whatever was stored —
while
`result` is written only when `result_data` is non-null; status is set
and the call reports success when its infrastructure effect succeeds. -/
theorem c10_updateExecution_always_writes_retry_count
    (id st : String) (res : Option Obj) (rc : Nat) (e : Execution)
    (w : World) (effs : List (Option String))
    (hGet : storeGet w.store id = some e)
    (hEff : w.effects = none :: effs) :
    (updateExecution id st res rc w).1 = .ok () ∧
    storeGet ((updateExecution id st res rc w).2).store id =
      some { e with
               status := st
               retry_count := rc
               result := match res with
                 | some r => some r
                 | none => e.result } := by
  unfold updateExecution
  rw [takeEff_eq, hEff]
  simp [hGet, applyUpdate, storeGet_storeSet]

/-- C10 witness: the processing-transition call pattern of the consumer on a
record with `retry_count = 1` overwrites it with 0. -/
theorem c10_witness :
    (updateExecution "exec_1" "processing" none 0
      (exampleWorld 1 [none])).1 = .ok () ∧
    storeGet ((updateExecution "exec_1" "processing" none 0
      (exampleWorld 1 [none])).2).store "exec_1" =
      some { exampleRecord 1 with
               status := "processing"
               retry_count := 0 } := by
  have h := c10_updateExecution_always_writes_retry_count "exec_1"
    "processing" none 0 (exampleRecord 1) (exampleWorld 1 [none]) []
    (by decide) (by decide)
  simpa using h

/-- C5: replaying any stored execution — whatever its status and prior
retry count — re-enqueues the stored payload (or the bare action object
when none was stored) through the queue-send primitive of the producer and
resets the record to `queued` with `retry_count = 0`, leaving its result
field untouched: a full reset regardless of the prior count, never an
increment. -/
theorem c5_replay_resets_to_queued_zero
    (id : String) (e : Execution) (w : World) (effs : List (Option String))
    (hGet : storeGet w.store id = some e)
    (hEff : w.effects = none :: none :: none :: none :: effs) :
    replayExecution id w =
      ((⟨id, true, none⟩ : ReplayResult),
        { w with
            store := storeSet w.store id
              { e with status := "queued", retry_count := 0 }
            queue := w.queue ++
              [⟨id, e.payload.getD (payloadOfAction e.action)⟩]
            logs := w.logs ++ [⟨id, "info", "Execution replayed from DLQ"⟩]
            trace := w.trace ++ [⟨id, "queued", none, 0⟩]
            effects := effs }) := by
  unfold replayExecution getExecution sendToQueue updateExecution writeLog
  simp [takeEff_eq, hEff, hGet, applyUpdate]

/-- C5 witness: a record with prior retry count 5 is reset to
`queued` / 0. -/
theorem c5_witness :
    (replayExecution "exec_1" (exampleWorld 5 [none, none, none, none])).1 =
      (⟨"exec_1", true, none⟩ : ReplayResult) ∧
    storeGet (replayExecution "exec_1"
      (exampleWorld 5 [none, none, none, none])).2.store "exec_1" =
      some { exampleRecord 5 with status := "queued", retry_count := 0 } := by
  have h := c5_replay_resets_to_queued_zero "exec_1" (exampleRecord 5)
    (exampleWorld 5 [none, none, none, none]) [] (by decide) (by decide)
  rw [h]
  decide

/-- C7 counterexample: on an id with no stored record the two entry
paths disagree — the manual consumer route returns a not-found failure
and writes nothing, while the queue-delivery path processes the message
anyway, reports success, and (through the upserting update) creates a
record. -/
theorem c7_counterexample_missing_record :
    (handleConsumer ⟨some "exec_1"⟩ baseWorld).1 =
      ⟨false, none, some "Execution not found"⟩ ∧
    (handleConsumer ⟨some "exec_1"⟩ baseWorld).2.store = [] ∧
    (processMessage exampleMsg baseWorld).1 =
      .ok ⟨true, some (.obj [("message",
        "Action send-slack-message processed successfully")]), none⟩ ∧
    (processMessage exampleMsg baseWorld).2.store ≠ [] := by
  decide

/-- C7 amended: when the execution id of the message is non-empty, its record
exists, the stored `execution_id` and `action` fields agree with the
message, and the extra lookup of the manual route succeeds, the manual
invocation `handleConsumer` produces exactly the world `processMessage`
produces on that message and returns its success envelope (a
`processMessage` throw becoming a `status := false` envelope), and the
SQS entry path on the one-message batch likewise just runs
`processMessage` (re-raising its error). -/
theorem c7_manual_matches_queue_on_existing_record
    (m : QueueMsg) (e : Execution) (w : World) (effs : List (Option String))
    (hNe : m.execution_id ≠ "")
    (hEff : w.effects = none :: effs)
    (hGet : storeGet w.store m.execution_id = some e)
    (hId : e.execution_id = m.execution_id)
    (hAct : e.action = m.body.action) :
    handleConsumer ⟨some m.execution_id⟩ w =
      ((match (processMessage m { w with effects := effs }).1 with
        | .ok r => r
        | .error msg => ⟨false, none, some msg⟩),
       (processMessage m { w with effects := effs }).2) ∧
    handleSQSEvent [m] { w with effects := effs } =
      ((processMessage m { w with effects := effs }).1.map fun _ => (),
        (processMessage m { w with effects := effs }).2) := by
  have hdep := processMessage_depends
    ⟨e.execution_id, payloadOfAction e.action⟩ m { w with effects := effs }
    (by simpa using hId) (by simpa [payloadOfAction] using hAct)
  constructor
  · unfold handleConsumer getExecution
    simp only [takeEff_eq, hEff, isFalsy]
    simp only [hNe, hGet, hdep, Option.getD_some, List.head?, List.tail,
      Option.getD, ite_false, if_neg]
    simp [hNe, hGet, hdep]
    rcases hp : (processMessage m { w with effects := effs }).1 with msg | r <;>
      simp [hp]
  · unfold handleSQSEvent
    rcases hp : (processMessage m { w with effects := effs }).1 with msg | r
    · simp [hp, handleSQSEvent, Except.map]
    · simp [hp, handleSQSEvent, Except.map]

/-- C8: `replayExecution` never throws past its boundary: for every
world it returns a per-execution result carrying the input id, with
`success = true` exactly when no step failed (`error = none`); a thrown
lookup reports its message, and a missing record reports the not-found
message — so a batch caller can keep iterating over remaining ids. -/
theorem c8_replay_total_structured_result (id : String) (w : World) :
    (replayExecution id w).1.execution_id = id ∧
    ((replayExecution id w).1.success = true ↔
      (replayExecution id w).1.error = none) ∧
    (∀ m, w.effects.head? = some (some m) →
      (replayExecution id w).1 = ⟨id, false, some m⟩) ∧
    (w.effects.head?.getD none = none → storeGet w.store id = none →
      (replayExecution id w).1 = ⟨id, false, some "Execution not found"⟩) ∧
    (∀ (e : Execution) (m : String) (effs : List (Option String)),
      w.effects = none :: some m :: effs → storeGet w.store id = some e →
      (replayExecution id w).1 = ⟨id, false, some m⟩) ∧
    (∀ (e : Execution) (m : String) (effs : List (Option String)),
      w.effects = none :: none :: some m :: effs →
      storeGet w.store id = some e →
      (replayExecution id w).1 = ⟨id, false, some m⟩) := by
  refine ⟨?_, ?_, ?_, ?_, ?_, ?_⟩
  · rcases replayExecution_shape id w with h | ⟨m, h⟩ <;> rw [h]
  · rcases replayExecution_shape id w with h | ⟨m, h⟩ <;> rw [h] <;> simp
  · intro m hm
    unfold replayExecution getExecution
    simp [takeEff_eq, hm]
  · intro h1 h2
    unfold replayExecution getExecution
    simp [takeEff_eq, h1, h2]
  · intro e m effs hEff hGet
    unfold replayExecution getExecution sendToQueue
    simp [takeEff_eq, hEff, hGet]
  · intro e m effs hEff hGet
    unfold replayExecution getExecution sendToQueue updateExecution
    simp [takeEff_eq, hEff, hGet]

/-- C8 witness: an unknown id on the empty world is reported per-item as
a not-found failure. -/
theorem c8_witness :
    (replayExecution "missing" baseWorld).1 =
      ⟨"missing", false, some "Execution not found"⟩ :=
  (c8_replay_total_structured_result "missing" baseWorld).2.2.2.1 rfl rfl

/-- Invariant bundle of the dead-letter drain loop, by induction over
the fetched batch: newly acknowledged handles all come from the batch,
the acknowledged list only grows, dead-letter entries whose handle is
never acknowledged stay in place, and on a completed loop the i-th
appended result corresponds to the i-th message — a failed result
meaning the handle of its message is never acknowledged and its entry
survives. -/
theorem replayLoop_spec (msgs : List DlqMessage) (acc : List ReplayResult)
    (w : World)
    (hND : (msgs.map DlqMessage.receiptHandle).Nodup)
    (hFresh : ∀ dm ∈ msgs, dm.receiptHandle ∉ w.deleted) :
    (∀ h, h ∈ (replayLoop msgs acc w).2.deleted →
      h ∈ w.deleted ∨ h ∈ msgs.map DlqMessage.receiptHandle) ∧
    (∀ h, h ∈ w.deleted → h ∈ (replayLoop msgs acc w).2.deleted) ∧
    (∀ dm : DlqMessage, dm ∈ w.dlq →
      dm.receiptHandle ∉ (replayLoop msgs acc w).2.deleted →
      dm ∈ (replayLoop msgs acc w).2.dlq) ∧
    (∀ results, (replayLoop msgs acc w).1 = .ok results →
      ∃ news, results = acc ++ news ∧ news.length = msgs.length ∧
        ∀ i (hi : i < msgs.length) (hj : i < news.length),
          (news.get ⟨i, hj⟩).success = false →
            (msgs.get ⟨i, hi⟩).receiptHandle ∉
              (replayLoop msgs acc w).2.deleted ∧
            ((msgs.get ⟨i, hi⟩) ∈ w.dlq →
              (msgs.get ⟨i, hi⟩) ∈ (replayLoop msgs acc w).2.dlq)) := by
  induction msgs generalizing acc w with
  | nil =>
      simp only [replayLoop]
      refine ⟨fun h hm => Or.inl hm, fun h hm => hm,
        fun dm hdm _ => hdm, ?_⟩
      intro results hres
      obtain rfl : acc = results := by simpa using hres
      exact ⟨[], by simp, rfl, fun i hi hj _ => absurd hj (by simp)⟩
  | cons msg rest ih =>
      rw [List.map_cons, List.nodup_cons] at hND
      obtain ⟨hHead, hND'⟩ := hND
      have hfr := replayExecution_frame msg.body.execution_id w
      simp only [replayLoop]
      by_cases hs : (replayExecution msg.body.execution_id w).1.success = true
      · rw [if_pos hs]
        rcases deleteFromDLQ_cases msg.receiptHandle
            (replayExecution msg.body.execution_id w).2 with
          ⟨hd1, hdel, hdlq⟩ | ⟨mm, hd1, hdel, hdlq⟩
        · rw [hd1]
          have hfresh' : ∀ dm ∈ rest, dm.receiptHandle ∉
              (deleteFromDLQ msg.receiptHandle
                (replayExecution msg.body.execution_id w).2).2.deleted := by
            intro dm hdm
            rw [hdel, hfr.1, List.mem_append]
            rintro (hA | hB)
            · exact hFresh dm (List.mem_cons_of_mem _ hdm) hA
            · have : dm.receiptHandle = msg.receiptHandle := by simpa using hB
              exact hHead (this ▸ List.mem_map_of_mem DlqMessage.receiptHandle hdm)
          obtain ⟨ih1, ih4, ih3, ih2⟩ := ih
            (acc ++ [(replayExecution msg.body.execution_id w).1])
            (deleteFromDLQ msg.receiptHandle
              (replayExecution msg.body.execution_id w).2).2 hND' hfresh'
          have hmono : msg.receiptHandle ∈
              (replayLoop rest
                (acc ++ [(replayExecution msg.body.execution_id w).1])
                (deleteFromDLQ msg.receiptHandle
                  (replayExecution msg.body.execution_id w).2).2).2.deleted := by
            apply ih4
            rw [hdel]
            exact List.mem_append_right _ (by simp)
          refine ⟨?_, ?_, ?_, ?_⟩
          · intro h hm
            rcases ih1 h hm with hA | hB
            · rw [hdel, hfr.1, List.mem_append] at hA
              rcases hA with hA | hA
              · exact Or.inl hA
              · exact Or.inr (by simpa using Or.inl (by simpa using hA))
            · exact Or.inr (by rw [List.map_cons]; exact List.mem_cons_of_mem _ hB)
          · intro h hm
            apply ih4
            rw [hdel, hfr.1]
            exact List.mem_append_left _ hm
          · intro dm hdm hnd
            apply ih3 dm
            · rw [hdlq, hfr.2, List.mem_filter]
              refine ⟨hdm, ?_⟩
              simp only [decide_eq_true_eq]
              intro heq
              exact hnd (heq ▸ hmono)
            · exact hnd
          · intro results hres
            obtain ⟨news', e1, e2, e3⟩ := ih2 results hres
            refine ⟨(replayExecution msg.body.execution_id w).1 :: news',
              by rw [e1]; simp, by simp [e2], ?_⟩
            intro i hi hj hfalse
            cases i with
            | zero =>
                exact absurd (by simpa using hfalse)
                  (by simp [hs])
            | succ i =>
                have hi' : i < rest.length := by simpa using hi
                have hj' : i < news'.length := by simpa using hj
                have := e3 i hi' hj' (by simpa using hfalse)
                refine ⟨by simpa using this.1, ?_⟩
                intro hdlqmem
                have hgetmem : (rest.get ⟨i, hi'⟩) ∈
                    (deleteFromDLQ msg.receiptHandle
                      (replayExecution msg.body.execution_id w).2).2.dlq := by
                  rw [hdlq, hfr.2, List.mem_filter]
                  refine ⟨by simpa using hdlqmem, ?_⟩
                  simp only [decide_eq_true_eq]
                  intro heq
                  exact hHead (heq ▸ List.mem_map_of_mem DlqMessage.receiptHandle
                    (List.get_mem rest i hi'))
                simpa using this.2 hgetmem
        · rw [hd1]
          refine ⟨?_, ?_, ?_, ?_⟩
          · intro h hm
            rw [hdel, hfr.1] at hm
            exact Or.inl hm
          · intro h hm
            rw [hdel, hfr.1]
            exact hm
          · intro dm hdm _
            rw [hdlq, hfr.2]
            exact hdm
          · intro results hres
            exact absurd hres (by simp)
      · rw [if_neg hs]
        have hfresh' : ∀ dm ∈ rest, dm.receiptHandle ∉
            (replayExecution msg.body.execution_id w).2.deleted := by
          intro dm hdm
          rw [hfr.1]
          exact hFresh dm (List.mem_cons_of_mem _ hdm)
        obtain ⟨ih1, ih4, ih3, ih2⟩ := ih
          (acc ++ [(replayExecution msg.body.execution_id w).1])
          (replayExecution msg.body.execution_id w).2 hND' hfresh'
        have hnotdel : msg.receiptHandle ∉
            (replayLoop rest
              (acc ++ [(replayExecution msg.body.execution_id w).1])
              (replayExecution msg.body.execution_id w).2).2.deleted := by
          intro hmem
          rcases ih1 _ hmem with hA | hB
          · rw [hfr.1] at hA
            exact hFresh msg (List.mem_cons_self _ _) hA
          · exact hHead hB
        refine ⟨?_, ?_, ?_, ?_⟩
        · intro h hm
          rcases ih1 h hm with hA | hB
          · rw [hfr.1] at hA
            exact Or.inl hA
          · exact Or.inr (by rw [List.map_cons]; exact List.mem_cons_of_mem _ hB)
        · intro h hm
          apply ih4
          rw [hfr.1]
          exact hm
        · intro dm hdm hnd
          apply ih3 dm
          · rw [hfr.2]
            exact hdm
          · exact hnd
        · intro results hres
          obtain ⟨news', e1, e2, e3⟩ := ih2 results hres
          refine ⟨(replayExecution msg.body.execution_id w).1 :: news',
            by rw [e1]; simp, by simp [e2], ?_⟩
          intro i hi hj hfalse
          cases i with
          | zero =>
              refine ⟨by simpa using hnotdel, ?_⟩
              intro hdlqmem
              have := ih3 msg (by rw [hfr.2]; simpa using hdlqmem) hnotdel
              simpa using this
          | succ i =>
              have hi' : i < rest.length := by simpa using hi
              have hj' : i < news'.length := by simpa using hj
              have := e3 i hi' hj' (by simpa using hfalse)
              refine ⟨by simpa using this.1, ?_⟩
              intro hdlqmem
              have := this.2 (by rw [hfr.2]; simpa using hdlqmem)
              simpa using this

theorem getExecution_snd (i : String) (w : World) :
    (getExecution i w).2 = (takeEff w).2 := by
  unfold getExecution
  dsimp only
  split <;> rfl

theorem getExecutionStatus_snd (i : String) (w : World) :
    (getExecutionStatus i w).2 = (takeEff w).2 := by
  unfold getExecutionStatus
  dsimp only
  split <;> exact getExecution_snd i w

theorem slackSendMessage_snd (m : String) (u : Option String) (w : World) :
    (slackSendMessage m u w).2 = (takeEff w).2 := by
  unfold slackSendMessage
  dsimp only
  split <;> rfl

theorem slackSendFormattedMessage_snd (p : Option Obj) (u : Option String)
    (w : World) : (slackSendFormattedMessage p u w).2 = (takeEff w).2 := by
  unfold slackSendFormattedMessage
  dsimp only
  split <;> rfl

theorem validateAction_valid_cases (p : Payload)
    (h : (validateAction p).valid = true) :
    p.action = "get-status" ∨ p.action = "send-slack-message" ∨
      p.action = "send-slack-formatted" := by
  unfold validateAction at h
  split_ifs at h with h1 h2 h3 h4 h5
  all_goals simp_all [VALID_ACTIONS]

theorem handleProducer_valid_frame (body : Payload) (w : World)
    (h : (validateAction body).valid = true) :
    (handleProducer body w).2.store = w.store ∧
      (handleProducer body w).2.queue = w.queue := by
  have hsq : (takeEff w).2.store = w.store ∧ (takeEff w).2.queue = w.queue := by
    rw [takeEff_eq]
    exact ⟨rfl, rfl⟩
  unfold handleProducer
  rw [if_neg (by simp [h])]
  rcases validateAction_valid_cases body h with ha | ha | ha
  · rw [if_pos ha]
    dsimp only
    split <;> rw [getExecutionStatus_snd] <;> exact hsq
  · rw [if_neg (by rw [ha]; decide), if_pos ha]
    dsimp only
    split <;> rw [slackSendMessage_snd] <;> exact hsq
  · rw [if_neg (by rw [ha]; decide), if_neg (by rw [ha]; decide), if_pos ha]
    dsimp only
    split <;> rw [slackSendFormattedMessage_snd] <;> exact hsq

/-- C4 amended: in `handleProducer` every valid action is handled
directly — no record is persisted and no queue message is sent for any
valid submission — while the (unreached) create-and-queue step itself,
fed a fresh uuid whose derived id is previously unseen, persists an
Execution with `status = queued`, `retry_count = 0`, enqueues a message
with the same id, and an immediate status read on that id then returns
`queued` with retry count 0. -/
theorem c4_amended_create_and_queue_unreached :
    (∀ (body : Payload) (w : World), (validateAction body).valid = true →
      (handleProducer body w).2.store = w.store ∧
        (handleProducer body w).2.queue = w.queue) ∧
    (∀ (p : Payload) (w : World) (u : String) (us : List String)
        (effs : List (Option String)),
      w.uuids = u :: us →
      w.effects = none :: none :: none :: none :: effs →
      storeGet w.store ("exec_" ++ u) = none →
      (createAndQueueExecution p w).1 =
        .ok ⟨true, some (.queuedOk ("exec_" ++ u)
          "Request queued successfully"), none⟩ ∧
      (createAndQueueExecution p w).2.queue =
        w.queue ++ [⟨"exec_" ++ u, p⟩] ∧
      storeGet (createAndQueueExecution p w).2.store ("exec_" ++ u) =
        some ⟨"exec_" ++ u, "queued", p.action, some p, 0, none⟩ ∧
      (getExecutionStatus ("exec_" ++ u) (createAndQueueExecution p w).2).1 =
        .ok ⟨true, some (.execStatus ("exec_" ++ u) "queued" p.action 0 none),
          none⟩) := by
  constructor
  · exact fun body w h => handleProducer_valid_frame body w h
  · intro p w u us effs hU hEff _hFresh
    unfold createAndQueueExecution freshUuid createExecution sendToQueue
      writeLog getExecutionStatus getExecution
    simp [takeEff_eq, hU, hEff, storeGet_storeSet]

/-- C4 amended witness: a valid Slack submission writes neither the
store nor the queue, and the create-and-queue step applied to the
one-uuid world queues and persists `exec_u1`. -/
theorem c4_witness :
    ((handleProducer examplePayload baseWorld).2.store = baseWorld.store ∧
      (handleProducer examplePayload baseWorld).2.queue = baseWorld.queue) ∧
    (createAndQueueExecution examplePayload c4World).1 =
      .ok ⟨true, some (.queuedOk ("exec_" ++ "u1")
        "Request queued successfully"), none⟩ := by
  constructor
  · exact c4_amended_create_and_queue_unreached.1 examplePayload baseWorld
      (by decide)
  · exact (c4_amended_create_and_queue_unreached.2 examplePayload c4World
      "u1" [] [] rfl rfl (by decide)).1

/-- C7 amended witness: on the stored `exec_1` record the manual route
and the queue-delivery route coincide. -/
theorem c7_witness :
    handleConsumer ⟨some exampleMsg.execution_id⟩ (exampleWorld 0 [none]) =
      ((match (processMessage exampleMsg
          { exampleWorld 0 [none] with effects := [] }).1 with
        | .ok r => r
        | .error msg => ⟨false, none, some msg⟩),
       (processMessage exampleMsg
         { exampleWorld 0 [none] with effects := [] }).2) ∧
    handleSQSEvent [exampleMsg]
        { exampleWorld 0 [none] with effects := [] } =
      ((processMessage exampleMsg
          { exampleWorld 0 [none] with effects := [] }).1.map fun _ => (),
        (processMessage exampleMsg
          { exampleWorld 0 [none] with effects := [] }).2) :=
  c7_manual_matches_queue_on_existing_record exampleMsg (exampleRecord 0)
    (exampleWorld 0 [none]) [] (by decide) rfl (by decide) rfl rfl

/-- C6: dead-letter acknowledgment only follows a reported replay
success. First, the final transport state of the drain is that of the
per-message loop on the fetched batch. Second, over that loop (with
distinct, previously unacknowledged receipt handles): every newly
acknowledged handle belongs to a fetched message, and whenever the
recorded per-message result reports failure, the handle of that message is
never acknowledged and the message stays in the dead-letter queue. -/
theorem c6_dlq_delete_only_after_replay_success :
    (∀ (w : World) (effs : List (Option String)), w.effects = none :: effs →
      w.dlq ≠ [] →
      (replayAllFromDLQ w).2 =
        (replayLoop (w.dlq.take 10) [] { w with effects := effs }).2) ∧
    (∀ (msgs : List DlqMessage) (w : World),
      (msgs.map DlqMessage.receiptHandle).Nodup →
      (∀ dm ∈ msgs, dm.receiptHandle ∉ w.deleted) →
      (∀ h, h ∈ (replayLoop msgs [] w).2.deleted →
        h ∈ w.deleted ∨ h ∈ msgs.map DlqMessage.receiptHandle) ∧
      (∀ results, (replayLoop msgs [] w).1 = .ok results →
        results.length = msgs.length ∧
        ∀ i (hi : i < msgs.length) (hj : i < results.length),
          (results.get ⟨i, hj⟩).success = false →
            (msgs.get ⟨i, hi⟩).receiptHandle ∉
              (replayLoop msgs [] w).2.deleted ∧
            ((msgs.get ⟨i, hi⟩) ∈ w.dlq →
              (msgs.get ⟨i, hi⟩) ∈ (replayLoop msgs [] w).2.dlq))) := by
  constructor
  · intro w effs hEff hne
    unfold replayAllFromDLQ fetchDLQMessages
    rw [takeEff_eq, hEff]
    simp only [List.head?_cons, Option.getD_some, List.tail_cons, min_self]
    rw [if_neg (by
      have hlen : w.dlq.length ≠ 0 := by
        simpa [List.length_eq_zero] using hne
      simp only [List.length_take]
      omega)]
    split <;> rfl
  · intro msgs w hND hFresh
    obtain ⟨s1, _s4, _s3, s2⟩ := replayLoop_spec msgs [] w hND hFresh
    refine ⟨s1, ?_⟩
    intro results hres
    obtain ⟨news, e1, e2, e3⟩ := s2 results hres
    obtain rfl : results = news := by simpa using e1
    exact ⟨e2, e3⟩

/-- C6 witness: draining the two-message dead-letter queue of `c6World`
ends in the loop's transport state, and a newly acknowledged handle of
that loop comes from the batch. -/
theorem c6_witness :
    (replayAllFromDLQ c6World).2 =
      (replayLoop (c6World.dlq.take 10) []
        { c6World with effects := [] }).2 ∧
    ("rh2" ∈ (replayLoop [dlqMsg1, dlqMsg2] []
        { c6World with effects := [] }).2.deleted →
      "rh2" ∈ ({ c6World with effects := [] } : World).deleted ∨
        "rh2" ∈ [dlqMsg1, dlqMsg2].map DlqMessage.receiptHandle) :=
  ⟨c6_dlq_delete_only_after_replay_success.1 c6World [] rfl (by decide),
   (c6_dlq_delete_only_after_replay_success.2 [dlqMsg1, dlqMsg2]
     { c6World with effects := [] } (by decide) (by decide)).1 "rh2"⟩

end LambdaApp
